import Mathlib

/-!
Verification of the Resilient Browser Session & Posting Automaton
(facebook_auto_posting): a shallow embedding of the decision structure of
`facebook_playwright_bot.py` and `facebook_selenium_bot.py` (with the
attachment-extension sets taken from `facebook_api_poster.py`), and theorems
settling the spec's claims about it.

Time is modelled in seconds as `Nat`; the page URL during the login tail is an
environment function `Nat → String`; element resolution outcomes are Boolean
environment fields, since the bots only branch on found/not-found.
-/

namespace FBAuto

/-- Does the first character list occur at the head of the second? -/
def prefixMatch : List Char → List Char → Bool
  | [], _ => true
  | _ :: _, [] => false
  | a :: as, b :: bs => a == b && prefixMatch as bs

/-- Does the needle occur contiguously anywhere in the haystack? -/
def scanFor (needle : List Char) : List Char → Bool
  | [] => prefixMatch needle []
  | b :: bs => prefixMatch needle (b :: bs) || scanFor needle bs

/-- Python's `needle in hay` substring test on strings. -/
def substrIn (needle hay : String) : Bool :=
  scanFor needle.data hay.data

/-- ASCII lowercasing of one character (Python `str.lower` restricted to the
ASCII range; the Korean dismissal labels have no case and are unchanged). -/
def asciiLowerChar (c : Char) : Char :=
  if 'A' ≤ c && c ≤ 'Z' then Char.ofNat (c.toNat + 32) else c

/-- Python `s.lower()` for the strings compared here. -/
def strLower (s : String) : String :=
  String.mk (s.data.map asciiLowerChar)

/-- Python's whitespace test for `str.strip()`. -/
def isSpaceChar (c : Char) : Bool :=
  c = ' ' || c = '\t' || c = '\n' || c = '\r'

/-- Python `s.strip()`: drop leading and trailing whitespace. -/
def strTrim (s : String) : String :=
  String.mk (((s.data.dropWhile isSpaceChar).reverse.dropWhile isSpaceChar).reverse)

/-- The login success check both drivers run after the submit/checkpoint phase:
`"facebook.com" in current_url and "login" not in current_url`
(facebook_playwright_bot.py:288, facebook_selenium_bot.py:331). -/
def loginSuccessCheck (u : String) : Bool :=
  substrIn "facebook.com" u && !substrIn "login" u

/-- The checkpoint indicator test `"checkpoint" in url`
(facebook_playwright_bot.py:266, facebook_selenium_bot.py:325). -/
def checkpointIn (u : String) : Bool :=
  substrIn "checkpoint" u

/-- The Playwright manual-2FA countdown loop (facebook_playwright_bot.py:277-282):
`for i in range(timeout): if "checkpoint" not in url: break; sleep(1)`.
Arguments: remaining fuel (loop iterations left) and current time; returns the
time at which the loop exits. -/
def pwWaitLoop (url : Nat → String) : Nat → Nat → Nat
  | 0, t => t
  | n + 1, t => if checkpointIn (url t) = false then t else pwWaitLoop url n (t + 1)

/-- The Playwright login tail (facebook_playwright_bot.py:266-298): after the
post-submit settle, if the URL shows a checkpoint run the countdown loop, then
apply the success check to the URL at the resulting time. Returns
(returned boolean, time at which the check is made, time origin = just after
the settle sleep). -/
def pwLoginTail (url : Nat → String) (timeout : Nat) : Bool × Nat :=
  let t1 := if checkpointIn (url 0) then pwWaitLoop url timeout 0 else 0
  (loginSuccessCheck (url t1), t1)

/-- The Selenium login tail (facebook_selenium_bot.py:324-341): if the URL shows
a checkpoint, `time.sleep(30)` unconditionally (no polling), then apply the
success check. -/
def seLoginTail (url : Nat → String) : Bool × Nat :=
  let t1 := if checkpointIn (url 0) then 30 else 0
  (loginSuccessCheck (url t1), t1)

/-- A URL environment that sits on the verification checkpoint forever. -/
def ckptForeverUrl : Nat → String :=
  fun _ => "https://www.facebook.com/checkpoint/?next"

/-- A URL environment where the checkpoint clears at time 1 (a human resolved
it after one second). -/
def ckptClearsAt1Url : Nat → String :=
  fun t => if t = 0 then "https://www.facebook.com/checkpoint/?next"
           else "https://www.facebook.com/home"

/-! ### Full login runs

Both `login` methods branch only on whether each required element resolved and
on the URL history, so a run is determined by those observables. The action
trace records the externally visible steps the method performed, in order. -/

/-- Externally visible steps of a `login` run. -/
inductive LoginAct
  | navigate
  | dismissPopups
  | fillEmail
  | fillPassword
  | clickLogin
  | dismissSaveLogin
  deriving DecidableEq, Repr

/-- Observables of one Playwright login run: whether each required element
resolves within its wait, and the URL as a function of time (origin = just
after the post-submit settle). -/
structure PwEnv where
  emailFound : Bool
  passwordFound : Bool
  loginBtnFound : Bool
  url : Nat → String

/-- Playwright `login` (facebook_playwright_bot.py:219-305). A failed
`wait_for_selector` raises `PlaywrightTimeoutError`, caught by the handler at
line 300, so the method returns `False` rather than crashing; the trace stops
at the last completed step. On the success branch the save-login dismissal
sweep runs before the method returns (lines 292-294). Returns
(returned boolean, checkpoint-check time, action trace). -/
def pwLogin (env : PwEnv) (manual2faTimeout : Nat) : Bool × Nat × List LoginAct :=
  if env.emailFound = false then
    (false, 0, [LoginAct.navigate, LoginAct.dismissPopups])
  else if env.passwordFound = false then
    (false, 0, [LoginAct.navigate, LoginAct.dismissPopups, LoginAct.fillEmail])
  else if env.loginBtnFound = false then
    (false, 0, [LoginAct.navigate, LoginAct.dismissPopups, LoginAct.fillEmail,
                LoginAct.fillPassword])
  else
    let r := pwLoginTail env.url manual2faTimeout
    if r.1 then
      (true, r.2, [LoginAct.navigate, LoginAct.dismissPopups, LoginAct.fillEmail,
                   LoginAct.fillPassword, LoginAct.clickLogin, LoginAct.dismissSaveLogin])
    else
      (false, r.2, [LoginAct.navigate, LoginAct.dismissPopups, LoginAct.fillEmail,
                    LoginAct.fillPassword, LoginAct.clickLogin])

/-- Observables of one Selenium login run. -/
structure SeEnv where
  emailFound : Bool
  passwordFound : Bool
  loginBtnFound : Bool
  url : Nat → String

/-- Selenium `login` (facebook_selenium_bot.py:279-348). A failed element wait
raises `TimeoutException`/`NoSuchElementException`, caught at lines 343-347, so
the method returns `False`. The checkpoint wait is an unconditional
`time.sleep(30)` (line 328). -/
def seLogin (env : SeEnv) : Bool × Nat × List LoginAct :=
  if env.emailFound = false then
    (false, 0, [LoginAct.navigate, LoginAct.dismissPopups])
  else if env.passwordFound = false then
    (false, 0, [LoginAct.navigate, LoginAct.dismissPopups, LoginAct.fillEmail])
  else if env.loginBtnFound = false then
    (false, 0, [LoginAct.navigate, LoginAct.dismissPopups, LoginAct.fillEmail,
                LoginAct.fillPassword])
  else
    let r := seLoginTail env.url
    if r.1 then
      (true, r.2, [LoginAct.navigate, LoginAct.dismissPopups, LoginAct.fillEmail,
                   LoginAct.fillPassword, LoginAct.clickLogin, LoginAct.dismissSaveLogin])
    else
      (false, r.2, [LoginAct.navigate, LoginAct.dismissPopups, LoginAct.fillEmail,
                    LoginAct.fillPassword, LoginAct.clickLogin])

/-! ### The multi-candidate resolver

`_try_click` (facebook_playwright_bot.py:171-185) and
`_click_element_with_retry` (facebook_selenium_bot.py:175-194) have the same
shape: iterate over the candidate selectors in order; for each, wait for it up
to the full `timeout`; on the first hit, click and return; on a timeout,
continue with the next candidate. -/

/-- One `wait_for_selector`/`wait.until` call with per-call `timeout`:
`appear = some a` means the element becomes available `a` time units into the
call (the wait returns after `a` if `a ≤ timeout`); `none` means it never
appears. The result is `some elapsed` on success, `none` on timeout (the call
then consumed the whole `timeout`). -/
def tryOne (timeout : Nat) (appear : Option Nat) : Option Nat :=
  match appear with
  | none => none
  | some a => if a ≤ timeout then some a else none

/-- Wall-clock accounting of the resolver loop: returns (clicked?, total time
spent). Each failed candidate consumes the full `timeout`; a successful one
returns immediately after its appearance time. -/
def tryClickTime (timeout : Nat) : List (Option Nat) → Bool × Nat
  | [] => (false, 0)
  | c :: cs =>
    match tryOne timeout c with
    | some a => (true, a)
    | none =>
      let r := tryClickTime timeout cs
      (r.1, timeout + r.2)

/-- Candidate-evaluation accounting of the same loop: `resolve` abstracts one
candidate's wait (`some e` = resolved element, `none` = timed out). Returns
(the element acted on, the list of candidates evaluated, in order). -/
def tryClickResolve {σ ε : Type} (resolve : σ → Option ε) : List σ → Option ε × List σ
  | [] => (none, [])
  | c :: cs =>
    match resolve c with
    | some e => (some e, [c])
    | none =>
      let r := tryClickResolve resolve cs
      (r.1, c :: r.2)

/-! ### Session teardown -/

/-- The three resources a Playwright session holds. -/
inductive Release
  | ctx
  | browser
  | driver
  deriving DecidableEq, Repr

/-- Observables of one `close_browser` call: which resources are present and
which release calls raise. -/
structure CloseEnv where
  hasContext : Bool
  hasBrowser : Bool
  hasPlaywright : Bool
  contextCloseFails : Bool
  browserCloseFails : Bool
  playwrightStopFails : Bool

/-- Playwright `close_browser` (facebook_playwright_bot.py:161-169):
`if self.context: self.context.close()` then `if self.browser:
self.browser.close()` then `if self.playwright: self.playwright.stop()`,
with no exception handling, so a raising release aborts the method and the
later release calls are never made. Returns the list of release calls actually
performed, in order (a call that raises was still performed). -/
def close_browser (e : CloseEnv) : List Release :=
  if e.hasContext && e.contextCloseFails then [Release.ctx]
  else
    let l1 : List Release := if e.hasContext then [Release.ctx] else []
    if e.hasBrowser && e.browserCloseFails then l1 ++ [Release.browser]
    else
      let l2 := if e.hasBrowser then l1 ++ [Release.browser] else l1
      if e.hasPlaywright then l2 ++ [Release.driver] else l2

/-- The Python `with` statement over the bots' `__enter__`/`__exit__`
(facebook_playwright_bot.py:420-427, facebook_selenium_bot.py:468-475):
`__enter__` runs `start_browser`, the body either returns a value or raises
(`Except.error`), and `__exit__` runs `close_browser` in either case; since
`__exit__` returns `None`, an exception from the body is re-raised afterwards.
The state counts `start_browser` and `close_browser` invocations. -/
structure SessionState where
  opens : Nat
  closes : Nat
  deriving DecidableEq, Repr

/-- `__enter__`: runs `start_browser`. -/
def enterBot (s : SessionState) : SessionState :=
  { s with opens := s.opens + 1 }

/-- `__exit__`: runs `close_browser`. -/
def exitBot (s : SessionState) : SessionState :=
  { s with closes := s.closes + 1 }

/-- `with Bot(...) as bot: body` — enter, run the body, exit, propagate the
body's outcome. -/
def withBot {α : Type} (body : SessionState → SessionState × Except Unit α)
    (s : SessionState) : SessionState × Except Unit α :=
  let s1 := enterBot s
  let r := body s1
  (exitBot r.1, r.2)

/-! ### Attachment upload and post composition -/

/-- Supported image extensions (facebook_api_poster.py:98). -/
def imageExts : List String :=
  [".jpg", ".jpeg", ".png", ".gif", ".bmp", ".webp"]

/-- Supported video extensions (facebook_api_poster.py:139). -/
def videoExts : List String :=
  [".mp4", ".mov", ".avi", ".wmv", ".flv", ".mkv", ".webm"]

/-- Python `Path(p).suffix`: the final extension including its dot, or `""`
when the name has no dot (paths without directory separators). -/
def pathSuffix (p : String) : String :=
  if p.data.contains '.' then
    String.mk ('.' :: (p.data.reverse.takeWhile (fun c => c != '.')).reverse)
  else ""

/-- Is the path's lowercased extension in the supported image or video set?
This is the check the HTTP-API transport applies (facebook_api_poster.py:98
and 140). -/
def supportedExt (p : String) : Bool :=
  imageExts.contains (strLower (pathSuffix p)) || videoExts.contains (strLower (pathSuffix p))

/-- Observables of one attachment-upload sub-flow call. -/
structure UploadEnv where
  pickerFound : Bool
  fileInputFound : Bool
  fsExists : String → Bool

/-- Playwright `_upload_images` (facebook_playwright_bot.py:373-412): if the
photo/video button cannot be clicked, warn and return `False`; if the file
input never resolves, the raised timeout is caught by the handler at line 410
and the method returns `False`; otherwise feed each path whose file exists to
the input (a missing file is skipped with a warning) and return `True`.
Note the loop checks only existence — no extension check appears here.
Returns (returned boolean, paths fed to the file input, in order). -/
def uploadImages (env : UploadEnv) (paths : List String) : Bool × List String :=
  if env.pickerFound = false then (false, [])
  else if env.fileInputFound = false then (false, [])
  else (true, paths.filter env.fsExists)

/-- Selenium `_upload_media` (facebook_selenium_bot.py:423-466): the
photo/video-button click result is discarded (line 435); if `find_elements`
returns no file input the method returns `False`; otherwise feed each existing
path (existence is the only check) and return `True`. -/
def uploadMedia (env : UploadEnv) (paths : List String) : Bool × List String :=
  if env.fileInputFound = false then (false, [])
  else (true, paths.filter env.fsExists)

/-- Observables of one `create_post` call. -/
structure ComposerEnv where
  composerFound : Bool
  upload : UploadEnv
  textboxFound : Bool
  postButtonFound : Bool

/-- `create_post` (facebook_playwright_bot.py:307-371, and the identically
structured facebook_selenium_bot.py:350-421): open the composer (return
`False` if absent); if attachments were given, run the upload sub-flow and
discard its boolean result (line 340-341 / 386-387); resolve the text box
(a failed wait raises and is caught, returning `False`); type the message;
click the post button, returning `True` on success and `False` otherwise.
Returns (returned boolean, paths the upload sub-flow fed to the file input). -/
def create_post (env : ComposerEnv) (message : String) (paths : List String) :
    Bool × List String :=
  if env.composerFound = false then (false, [])
  else
    let up : Bool × List String :=
      if paths.isEmpty then (true, []) else uploadImages env.upload paths
    if env.textboxFound = false then (false, up.2)
    else if env.postButtonFound then (true, up.2)
    else (false, up.2)

/-! ### Save-login popup dismissal -/

/-- A clickable element, as the text scans see it. -/
structure Button where
  text : String
  deriving DecidableEq, Repr

/-- The tiers of the save-login dismissal sweep. -/
inductive DismissTier
  | structuredSelectors
  | textScan
  | spanScan
  deriving DecidableEq, Repr

/-- Dismissal labels of the Playwright text fallback
(facebook_playwright_bot.py:211). -/
def pwDismissLabels : List String :=
  ["취소", "cancel", "decline", "다음에", "not now"]

/-- The Playwright text fallback (facebook_playwright_bot.py:208-215):
enumerate the buttons, lowercase each one's text (`inner_text().lower()` — no
trimming), click the first whose text is in the label list. -/
def pwTextFallback (buttons : List Button) : Option Button :=
  buttons.find? (fun b => pwDismissLabels.contains (strLower b.text))

/-- Playwright `_dismiss_save_login_popup` (facebook_playwright_bot.py:197-217):
first `_try_click` over the structured `save_login_cancel` selectors; only if
that fails, the text fallback. Returns (tiers attempted in order, button the
text fallback clicked, if any). -/
def pwDismissSaveLogin (structuredHit : Bool) (buttons : List Button) :
    List DismissTier × Option Button :=
  if structuredHit then ([DismissTier.structuredSelectors], none)
  else ([DismissTier.structuredSelectors, DismissTier.textScan], pwTextFallback buttons)

/-- Dismissal labels of the Selenium text scan (facebook_selenium_bot.py:230). -/
def seDismissLabels : List String :=
  ["취소", "cancel", "decline", "다음에", "not now", "나중에", "정보 저장 안 함"]

/-- The Selenium text scan (facebook_selenium_bot.py:226-236): enumerate the
`role='button'` divs, trim and lowercase each one's text, click the first whose
text is in the label list. -/
def seTextScan (buttons : List Button) : Option Button :=
  buttons.find? (fun b => seDismissLabels.contains (strLower (strTrim b.text)))

/-- Selenium `_dismiss_save_login_popup` (facebook_selenium_bot.py:219-277):
tier 1 is the broad text scan over `role='button'` divs (lines 224-238); only
if it clicks nothing, tier 2 scans spans and clicks a matching span's button
ancestor (lines 241-254); only then tier 3 tries the structured aria-label
selectors (lines 257-275). Returns (tiers attempted in order, tier that
clicked, if any). -/
def seDismissSaveLogin (roleButtons : List Button) (spanHit : Bool)
    (selectorHit : Bool) : List DismissTier × Option DismissTier :=
  match seTextScan roleButtons with
  | some _ => ([DismissTier.textScan], some DismissTier.textScan)
  | none =>
    if spanHit then
      ([DismissTier.textScan, DismissTier.spanScan], some DismissTier.spanScan)
    else if selectorHit then
      ([DismissTier.textScan, DismissTier.spanScan, DismissTier.structuredSelectors],
       some DismissTier.structuredSelectors)
    else
      ([DismissTier.textScan, DismissTier.spanScan, DismissTier.structuredSelectors],
       none)

/-! ## Theorems -/

/-- The Playwright countdown loop exits at the first poll at which the
checkpoint indicator is gone, capped by its fuel. -/
theorem pwWaitLoop_first_clear (url : Nat → String) :
    ∀ (fuel t0 k : Nat), k ≤ fuel →
      (∀ t, t < k → checkpointIn (url (t0 + t)) = true) →
      checkpointIn (url (t0 + k)) = false →
      pwWaitLoop url fuel t0 = t0 + k := by
  intro fuel
  induction fuel with
  | zero =>
    intro t0 k hk _ _
    interval_cases k
    simp [pwWaitLoop]
  | succ n ih =>
    intro t0 k hk hbefore hclear
    cases k with
    | zero =>
      simp only [Nat.add_zero] at hclear
      simp [pwWaitLoop, hclear]
    | succ j =>
      have h0 : checkpointIn (url t0) = true := by
        have h := hbefore 0 (Nat.succ_pos j)
        simpa using h
      have hstep : pwWaitLoop url (n + 1) t0 = pwWaitLoop url n (t0 + 1) := by
        simp [pwWaitLoop, h0]
      rw [hstep]
      have hj : j ≤ n := Nat.succ_le_succ_iff.mp hk
      have hb : ∀ t, t < j → checkpointIn (url (t0 + 1 + t)) = true := by
        intro t ht
        have h := hbefore (t + 1) (Nat.succ_lt_succ ht)
        have harith : t0 + 1 + t = t0 + (t + 1) := by omega
        rw [harith]
        exact h
      have hc : checkpointIn (url (t0 + 1 + j)) = false := by
        have harith : t0 + 1 + j = t0 + (j + 1) := by omega
        rw [harith]
        exact hclear
      rw [ih (t0 + 1) j hj hb hc]
      omega

/-- C1: with a verification checkpoint whose indicator never disappears, both
drivers wait out exactly the manual-intervention timeout (30 polls / the full
sleep) and then report the login as successful (`True`), because the
post-checkpoint check `"facebook.com" in url and "login" not in url` also
accepts the checkpoint URL itself. This contradicts the claim that the outcome
is `CheckpointTimedOut` (a failure) and never `Success`; the timing half of
the claim (reported at the timeout) is what the code does. -/
theorem C1_checkpoint_never_clears_reported_success :
    (∀ t, checkpointIn (ckptForeverUrl t) = true) ∧
    (pwLogin ⟨true, true, true, ckptForeverUrl⟩ 30).1 = true ∧
    (pwLogin ⟨true, true, true, ckptForeverUrl⟩ 30).2.1 = 30 ∧
    (seLogin ⟨true, true, true, ckptForeverUrl⟩).1 = true ∧
    (seLogin ⟨true, true, true, ckptForeverUrl⟩).2.1 = 30 := by
  refine ⟨fun t => rfl, ?_, ?_, ?_, ?_⟩ <;> decide

/-- C2 counterexample: `_try_click` with `timeout = 5000` and two candidates
that never appear spends `2 × 5000 = 10000` ms, strictly more than the overall
timeout plus one polling interval (500 ms): the `timeout` argument bounds each
candidate's wait, not the whole call. -/
theorem C2_counterexample_total_time :
    tryClickTime 5000 [none, none] = (false, 10000) ∧ 5000 + 500 < 10000 := by
  decide

/-- A successful single-candidate wait returns within the per-call timeout. -/
theorem tryOne_le (timeout : Nat) (c : Option Nat) (a : Nat)
    (h : tryOne timeout c = some a) : a ≤ timeout := by
  cases c with
  | none => simp [tryOne] at h
  | some b =>
    by_cases hb : b ≤ timeout
    · simp [tryOne, hb] at h
      omega
    · simp [tryOne, hb] at h

/-- C2 amended: the `timeout` argument of the resolver applies per candidate,
so the total wall-clock over `n` candidates is bounded by `n × timeout` (not
by `timeout` plus one polling interval); a candidate that matches within its
wait makes the call return immediately, without attempting the remaining
candidates. -/
theorem C2_per_candidate_timeout (timeout : Nat) (cs : List (Option Nat)) :
    (tryClickTime timeout cs).2 ≤ cs.length * timeout ∧
    (∀ a rest, a ≤ timeout → tryClickTime timeout (some a :: rest) = (true, a)) := by
  constructor
  · induction cs with
    | nil => simp [tryClickTime]
    | cons c cs ih =>
      cases hc : tryOne timeout c with
      | some a =>
        have ha : a ≤ timeout := tryOne_le timeout c a hc
        have hv : tryClickTime timeout (c :: cs) = (true, a) := by
          simp [tryClickTime, hc]
        rw [hv]
        have hpos : timeout ≤ (c :: cs).length * timeout := by
          have := Nat.le_mul_of_pos_left timeout (Nat.succ_pos cs.length)
          simpa using this
        exact le_trans ha hpos
      | none =>
        have hv : (tryClickTime timeout (c :: cs)).2
            = timeout + (tryClickTime timeout cs).2 := by
          simp [tryClickTime, hc]
        rw [hv]
        have hlen : (c :: cs).length * timeout = cs.length * timeout + timeout := by
          simp [List.length_cons, Nat.succ_mul]
        omega
  · intro a rest ha
    simp [tryClickTime, tryOne, ha]

/-- C2 amended, witness: at `timeout = 5`, a failing candidate followed by one
appearing at 3 stays within `2 × 5`; a first candidate appearing at 3 returns
`(true, 3)` without touching the second. -/
theorem C2_per_candidate_timeout_witness :
    (tryClickTime 5 [none, some 3]).2 ≤ 2 * 5 ∧
    tryClickTime 5 [some 3, none] = (true, 3) :=
  ⟨(C2_per_candidate_timeout 5 [none, some 3]).1,
   (C2_per_candidate_timeout 5 [none, some 3]).2 3 [none] (by decide)⟩

/-- C5: if candidate `i` resolves and every earlier candidate does not, the
resolver loop returns the element found via candidate `i` and evaluates only
candidates `0..i` (the evaluated-candidate trace is `cs.take (i+1)`), never
any candidate after `i`. -/
theorem C5_first_match_wins {σ ε : Type} (resolve : σ → Option ε)
    (cs : List σ) (i : Nat) (e : ε) (hi : i < cs.length)
    (hbefore : ∀ j, (hj : j < cs.length) → j < i → resolve (cs.get ⟨j, hj⟩) = none)
    (hmatch : resolve (cs.get ⟨i, hi⟩) = some e) :
    tryClickResolve resolve cs = (some e, cs.take (i + 1)) := by
  induction cs generalizing i with
  | nil => simp at hi
  | cons c rest ih =>
    cases i with
    | zero =>
      have hc : resolve c = some e := hmatch
      simp [tryClickResolve, hc]
    | succ j =>
      have hc : resolve c = none := hbefore 0 (by simp) (Nat.succ_pos j)
      have hj' : j < rest.length := Nat.succ_lt_succ_iff.mp hi
      have hb : ∀ m, (hm : m < rest.length) → m < j →
          resolve (rest.get ⟨m, hm⟩) = none := by
        intro m hm hmj
        have h := hbefore (m + 1) (by simpa using Nat.succ_lt_succ hm)
          (Nat.succ_lt_succ hmj)
        simpa using h
      have hm : resolve (rest.get ⟨j, hj'⟩) = some e := by
        simpa using hmatch
      simp [tryClickResolve, hc, ih j hj' hb hm]

/-- Resolution behavior used by the C5 witness: only candidate `2` matches. -/
def witnessResolve : Nat → Option String :=
  fun n => if n = 2 then some "element" else none

/-- C5 witness: over candidates `[1, 2, 3]` where only `2` resolves, the loop
returns the element from `2` and evaluates exactly `[1, 2]`. -/
theorem C5_first_match_wins_witness :
    tryClickResolve witnessResolve [1, 2, 3] = (some "element", [1, 2]) := by
  have h := C5_first_match_wins witnessResolve [1, 2, 3] 1 "element" (by decide)
    (fun j hj hji => by
      have hj0 : j = 0 := by omega
      subst hj0
      rfl)
    (by decide)
  simpa using h

/-- Filesystem in which exactly the file `note.txt` exists. -/
def fsNoteOnly : String → Bool := fun p => p == "note.txt"

/-- C3 counterexample: both drivers' media-upload loops check only that the
file exists — `note.txt` exists, its extension is in neither supported set,
and it is still fed to the file input. -/
theorem C3_counterexample_extension_not_checked :
    uploadImages ⟨true, true, fsNoteOnly⟩ ["note.txt"] = (true, ["note.txt"]) ∧
    uploadMedia ⟨true, true, fsNoteOnly⟩ ["note.txt"] = (true, ["note.txt"]) ∧
    supportedExt "note.txt" = false := by
  decide

/-- C3 amended: the browser-bot media upload accepts a path iff the file
exists — the extension is never examined (the supported-extension sets are
enforced only by the HTTP-API transport); a non-existent attachment is skipped
with a warning, and a call with one non-existent and one existing attachment
feeds exactly the existing one and still returns success. -/
theorem C3_existence_only_validation (env : UploadEnv) (ps : List String)
    (h1 : env.pickerFound = true) (h2 : env.fileInputFound = true) :
    uploadImages env ps = (true, ps.filter env.fsExists) ∧
    uploadMedia env ps = (true, ps.filter env.fsExists) ∧
    (∀ (cenv : ComposerEnv) (msg p q : String),
      cenv.composerFound = true → cenv.textboxFound = true →
      cenv.postButtonFound = true →
      cenv.upload.pickerFound = true → cenv.upload.fileInputFound = true →
      cenv.upload.fsExists p = false → cenv.upload.fsExists q = true →
      create_post cenv msg [p, q] = (true, [q])) := by
  refine ⟨by simp [uploadImages, h1, h2], by simp [uploadMedia, h2], ?_⟩
  intro cenv msg p q hc ht hb hp1 hp2 hpex hqex
  simp [create_post, uploadImages, hc, ht, hb, hp1, hp2, hpex, hqex]

/-- C3 amended, witness: with only `note.txt` existing, the upload feeds
exactly `note.txt` and the surrounding `create_post` still returns success. -/
theorem C3_existence_only_validation_witness :
    uploadImages ⟨true, true, fsNoteOnly⟩ ["x.jpg", "note.txt"]
      = (true, ["note.txt"]) ∧
    create_post ⟨true, ⟨true, true, fsNoteOnly⟩, true, true⟩ "hello"
      ["x.jpg", "note.txt"] = (true, ["note.txt"]) := by
  have h := C3_existence_only_validation ⟨true, true, fsNoteOnly⟩
    ["x.jpg", "note.txt"] rfl rfl
  refine ⟨?_, ?_⟩
  · rw [h.1]
    decide
  · exact h.2.2 ⟨true, ⟨true, true, fsNoteOnly⟩, true, true⟩ "hello" "x.jpg"
      "note.txt" rfl rfl rfl rfl rfl rfl rfl

/-- A close call in which all three resources are live and closing the
context raises. -/
def ctxFailCloseEnv : CloseEnv := ⟨true, true, true, true, false, false⟩

/-- C4 counterexample: when `context.close()` raises, `close_browser` performs
no further release — in particular `playwright.stop()` (the driver/session
supervisor) is never attempted, contradicting "each release is attempted even
if an earlier release fails". -/
theorem C4_counterexample_context_failure_skips_rest :
    close_browser ctxFailCloseEnv = [Release.ctx] ∧
    Release.driver ∉ close_browser ctxFailCloseEnv := by
  decide

/-- C4 amended: the releases are performed in the order page/context → browser
→ driver/session supervisor, but there is no per-release exception isolation:
a raising release aborts `close_browser` and the later releases are skipped
(all three run only when the earlier ones do not raise). -/
theorem C4_ordered_releases_not_isolated (e : CloseEnv)
    (h1 : e.hasContext = true) (h2 : e.hasBrowser = true)
    (h3 : e.hasPlaywright = true) :
    close_browser e =
      if e.contextCloseFails then [Release.ctx]
      else if e.browserCloseFails then [Release.ctx, Release.browser]
      else [Release.ctx, Release.browser, Release.driver] := by
  cases hcf : e.contextCloseFails <;> cases hbf : e.browserCloseFails <;>
    simp [close_browser, h1, h2, h3, hcf, hbf]

/-- C4 amended, witness: with nothing raising, all three releases happen in
order; evaluated through the amended theorem at a concrete environment. -/
theorem C4_ordered_releases_not_isolated_witness :
    close_browser ⟨true, true, true, false, false, false⟩
      = [Release.ctx, Release.browser, Release.driver] := by
  have h := C4_ordered_releases_not_isolated ⟨true, true, true, false, false, false⟩
    rfl rfl rfl
  simpa using h

/-- C6: when the email field never resolves within its wait, both drivers
return `False` (the raised timeout is caught, not propagated), the run stops
after navigation and the popup sweep — in particular no password entry is ever
attempted and nothing is retried — and a run wrapped in the bots' context
manager still tears the session down exactly once. -/
theorem C6_email_never_resolves (penv : PwEnv) (senv : SeEnv) (n : Nat)
    (hp : penv.emailFound = false) (hs : senv.emailFound = false) :
    (pwLogin penv n).1 = false ∧
    (pwLogin penv n).2.2 = [LoginAct.navigate, LoginAct.dismissPopups] ∧
    LoginAct.fillPassword ∉ (pwLogin penv n).2.2 ∧
    (seLogin senv).1 = false ∧
    LoginAct.fillPassword ∉ (seLogin senv).2.2 ∧
    (∀ (s : SessionState),
      ((withBot (fun t => (t, Except.ok (pwLogin penv n).1)) s).1).closes
        = s.closes + 1) := by
  refine ⟨by simp [pwLogin, hp], by simp [pwLogin, hp], ?_, by simp [seLogin, hs],
    ?_, fun s => by simp [withBot, enterBot, exitBot]⟩
  · simp [pwLogin, hp]
  · simp [seLogin, hs]

/-- C6 witness: the concrete run with an absent email field, evaluated through
the theorem. -/
theorem C6_email_never_resolves_witness :
    (pwLogin ⟨false, true, true, ckptForeverUrl⟩ 0).1 = false ∧
    LoginAct.fillPassword ∉ (pwLogin ⟨false, true, true, ckptForeverUrl⟩ 0).2.2 ∧
    ((withBot
        (fun t => (t, Except.ok (pwLogin ⟨false, true, true, ckptForeverUrl⟩ 0).1))
        ⟨0, 0⟩).1).closes = 0 + 1 := by
  have h := C6_email_never_resolves ⟨false, true, true, ckptForeverUrl⟩
    ⟨false, true, true, ckptForeverUrl⟩ 0 rfl rfl
  exact ⟨h.1, h.2.2.1, h.2.2.2.2.2 ⟨0, 0⟩⟩

/-- C7 counterexample: in the Selenium driver the checkpoint indicator is
already gone at time 1, yet the driver performs no polling and only resumes at
time 30 — the full manual-intervention timeout — contradicting "exits the
waiting state early the moment the checkpoint indicator disappears (it does
not always sleep the full manual-intervention timeout)". -/
theorem C7_counterexample_selenium_full_sleep :
    checkpointIn (ckptClearsAt1Url 1) = false ∧
    seLoginTail ckptClearsAt1Url = (true, 30) := by
  decide

/-- C7 amended: the Playwright driver polls the URL once per second and exits
the wait at the first poll at which the checkpoint indicator is gone (capped
by the timeout), and the outcome is the success check applied to the URL at
that moment — `Success` when it shows the main site; the Selenium driver does
not poll: once a checkpoint is detected it sleeps the full 30-second timeout
and only then applies the success check. -/
theorem C7_pw_polls_se_sleeps (url : Nat → String) (timeout k : Nat)
    (hk : k ≤ timeout)
    (hbefore : ∀ t, t < k → checkpointIn (url t) = true)
    (hclear : checkpointIn (url k) = false) :
    pwLoginTail url timeout = (loginSuccessCheck (url k), k) ∧
    (∀ url2 : Nat → String, checkpointIn (url2 0) = true →
      seLoginTail url2 = (loginSuccessCheck (url2 30), 30)) := by
  constructor
  · cases hk0 : checkpointIn (url 0) with
    | false =>
      have hkz : k = 0 := by
        by_contra hne
        have h := hbefore 0 (Nat.pos_of_ne_zero hne)
        rw [hk0] at h
        exact absurd h (by decide)
      subst hkz
      simp [pwLoginTail, hk0]
    | true =>
      have hloop : pwWaitLoop url timeout 0 = k := by
        have h := pwWaitLoop_first_clear url timeout 0 k hk
          (fun t ht => by simpa using hbefore t ht)
          (by simpa using hclear)
        simpa using h
      simp [pwLoginTail, hk0, hloop]
  · intro url2 h0
    simp [seLoginTail, h0]

/-- C7 amended, witness: the checkpoint clears at time 1; Playwright exits its
wait at 1 (outcome of the success check there), while a never-clearing
Selenium run resumes only at 30. -/
theorem C7_pw_polls_se_sleeps_witness :
    pwLoginTail ckptClearsAt1Url 30 = (loginSuccessCheck (ckptClearsAt1Url 1), 1) ∧
    seLoginTail ckptForeverUrl = (loginSuccessCheck (ckptForeverUrl 30), 30) := by
  have h := C7_pw_polls_se_sleeps ckptClearsAt1Url 30 1 (by decide)
    (fun t ht => by
      have ht0 : t = 0 := by omega
      subst ht0
      rfl)
    (by decide)
  exact ⟨h.1, h.2 ckptForeverUrl (by decide)⟩

/-- C8 counterexample: in the Selenium driver the broad text scan is the FIRST
tier of the save-login dismissal — here it clicks a button whose text is
"Cancel" while the structured aria-label selectors (which would also have
matched) are never attempted — contradicting "a fallback executed only after
the structured selector attempts". Moreover the Playwright text tier compares
lowercased but UNtrimmed text: a clickable element whose text is "cancel "
(trailing space) is not matched. -/
theorem C8_counterexample_selenium_text_scan_first :
    seDismissSaveLogin [⟨"Cancel"⟩] true true
      = ([DismissTier.textScan], some DismissTier.textScan) ∧
    DismissTier.structuredSelectors ∉ (seDismissSaveLogin [⟨"Cancel"⟩] true true).1 ∧
    pwTextFallback [⟨"cancel "⟩] = none := by
  decide

/-- C8 amended: on every successful login detection the save-login dismissal
sweep runs before the method returns. In the Playwright driver the text-based
tier is a fallback run only after the structured selector attempts fail; it
enumerates the clickable elements, compares each one's lowercased (untrimmed)
text against the dismissal-label set, and clicks the first match. In the
Selenium driver the text-based scan is instead the first tier, executed before
the structured aria-label selector attempts. -/
theorem C8_sweep_structure (env : PwEnv) (n : Nat) (buttons : List Button)
    (hsucc : (pwLogin env n).1 = true) :
    LoginAct.dismissSaveLogin ∈ (pwLogin env n).2.2 ∧
    (∀ senv : SeEnv, (seLogin senv).1 = true →
      LoginAct.dismissSaveLogin ∈ (seLogin senv).2.2) ∧
    pwDismissSaveLogin true buttons = ([DismissTier.structuredSelectors], none) ∧
    pwDismissSaveLogin false buttons
      = ([DismissTier.structuredSelectors, DismissTier.textScan],
         buttons.find? (fun b => pwDismissLabels.contains (strLower b.text))) ∧
    (∀ rb sh selh,
      ((seDismissSaveLogin rb sh selh).1).head? = some DismissTier.textScan) := by
  refine ⟨?_, ?_, rfl, rfl, ?_⟩
  · by_cases h1 : env.emailFound = false
    · simp [pwLogin, h1] at hsucc
    · by_cases h2 : env.passwordFound = false
      · simp [pwLogin, h1, h2] at hsucc
      · by_cases h3 : env.loginBtnFound = false
        · simp [pwLogin, h1, h2, h3] at hsucc
        · by_cases h4 : (pwLoginTail env.url n).1 = true
          · simp [pwLogin, h1, h2, h3, h4]
          · simp [pwLogin, h1, h2, h3, h4] at hsucc
  · intro senv hsesucc
    by_cases h1 : senv.emailFound = false
    · simp [seLogin, h1] at hsesucc
    · by_cases h2 : senv.passwordFound = false
      · simp [seLogin, h1, h2] at hsesucc
      · by_cases h3 : senv.loginBtnFound = false
        · simp [seLogin, h1, h2, h3] at hsesucc
        · by_cases h4 : (seLoginTail senv.url).1 = true
          · simp [seLogin, h1, h2, h3, h4]
          · simp [seLogin, h1, h2, h3, h4] at hsesucc
  · intro rb sh selh
    cases h : seTextScan rb with
    | some b => simp [seDismissSaveLogin, h]
    | none => cases sh <;> cases selh <;> simp [seDismissSaveLogin, h]

/-- A URL environment already on the logged-in home surface. -/
def homeUrl : Nat → String := fun _ => "https://www.facebook.com/home"

/-- C8 amended, witness: successful concrete login runs of both drivers have
the sweep in their trace, and the Playwright fallback clicks the "Cancel"
button. -/
theorem C8_sweep_structure_witness :
    LoginAct.dismissSaveLogin ∈ (pwLogin ⟨true, true, true, homeUrl⟩ 0).2.2 ∧
    LoginAct.dismissSaveLogin ∈ (seLogin ⟨true, true, true, homeUrl⟩).2.2 ∧
    pwDismissSaveLogin false [⟨"Cancel"⟩]
      = ([DismissTier.structuredSelectors, DismissTier.textScan],
         some ⟨"Cancel"⟩) := by
  have h := C8_sweep_structure ⟨true, true, true, homeUrl⟩ 0 [⟨"Cancel"⟩] (by decide)
  refine ⟨h.1, h.2.1 ⟨true, true, true, homeUrl⟩ (by decide), ?_⟩
  rw [h.2.2.2.1]
  decide

/-- C9: for every body (including one that raises mid-flow) the context
manager runs teardown exactly once per entered session — the close count rises
by exactly one, open counts are untouched by teardown, and the body's outcome
(value or exception) is propagated unchanged, not swallowed. -/
theorem C9_teardown_exactly_once {α : Type}
    (body : SessionState → SessionState × Except Unit α) (s : SessionState)
    (hbody : ∀ t, ((body t).1).closes = t.closes) :
    ((withBot body s).1).closes = s.closes + 1 ∧
    ((withBot body s).1).opens = ((body (enterBot s)).1).opens ∧
    (withBot body s).2 = (body (enterBot s)).2 := by
  refine ⟨?_, rfl, rfl⟩
  simp [withBot, exitBot, hbody, enterBot]

/-- C9 witness: a body that raises; the session opened at count 0 is closed
exactly once. -/
theorem C9_teardown_exactly_once_witness :
    ((withBot (fun t => (t, (Except.error () : Except Unit Unit))) ⟨1, 0⟩).1).closes
      = 0 + 1 := by
  have h := C9_teardown_exactly_once
    (fun t => (t, (Except.error () : Except Unit Unit))) ⟨1, 0⟩ (fun t => rfl)
  exact h.1

/-- C10: with a non-empty attachment list, `create_post`'s returned boolean is
exactly `composer found ∧ text box found ∧ post button found` — it does not
depend on the attachment sub-flow's environment or boolean result at all, so a
failed upload (picker or file input missing, or an upload error) never aborts
the post, text entry and submission still run, and no attachment-failure
outcome is surfaced to the caller. -/
theorem C10_upload_result_ignored (env : ComposerEnv) (msg : String)
    (ps : List String) (hne : ps ≠ []) :
    (create_post env msg ps).1
      = (env.composerFound && env.textboxFound && env.postButtonFound) := by
  rcases env with ⟨cf, up, tf, pf⟩
  cases cf <;> cases tf <;> cases pf <;> simp [create_post]

/-- C10 witness: a run whose upload sub-flow fails (`picker` and file input
absent, no file exists) still returns success. -/
theorem C10_upload_result_ignored_witness :
    (create_post ⟨true, ⟨false, false, fun _ => false⟩, true, true⟩ "hi"
      ["x.jpg"]).1 = (true && true && true) ∧
    (uploadImages ⟨false, false, fun _ => false⟩ ["x.jpg"]).1 = false := by
  refine ⟨?_, by decide⟩
  exact C10_upload_result_ignored ⟨true, ⟨false, false, fun _ => false⟩, true, true⟩
    "hi" ["x.jpg"] (by simp)

end FBAuto
